import Mathlib

set_option maxHeartbeats 1000000
set_option maxRecDepth 16000

/-
Verification of the UISP REST API client (src/uisp_api/uisp.py).

The client is a single class holding five configuration fields and exposing
read operations that funnel through two private request helpers, one for the
CRM side and one for the NMS side of the API.  The embedding below models the
HTTP transport as a function from requests to responses, and every client
method as a function from the configuration, the transport and its arguments
to an outcome: the value returned or the Python exception raised, the list of
HTTP requests issued during the call, and the configuration state left on the
object afterwards.
-/

namespace UISP

/-- A decoded JSON value, as produced by the HTTP library from a response
body. -/
inductive Json where
  | null
  | bool (b : Bool)
  | num (n : Int)
  | str (s : String)
  | arr (elems : List Json)
  | obj (fields : List (String × Json))

/-- Python exception values raised by the client code: APIException from the
module itself, RuntimeError from the NMS status check, KeyError and TypeError
from dictionary subscription. -/
inductive PyError where
  | apiException (msg : String)
  | runtimeError (msg : String)
  | keyError (key : String)
  | typeError (msg : String)

/-- Python subscription value[key] for a decoded JSON value and a string key:
the field value for an object that has the key, a KeyError for an object
missing the key, a TypeError for a non-object value. -/
def Json.subscript : Json → String → Except PyError Json
  | .obj fields, key =>
    match fields.find? (fun p => p.1 == key) with
    | some p => .ok p.2
    | none => .error (.keyError key)
  | _, _ => .error (.typeError "value is not subscriptable by a string key")

/-- An HTTP request as issued through the requests library: verb, full URL,
header list and optional query parameters. -/
structure HttpRequest where
  method : String
  url : String
  headers : List (String × String)
  params : Option (List (String × String))

/-- An HTTP response: status code, decoded JSON body and raw body. -/
structure HttpResponse where
  status_code : Nat
  json : Json
  raw : String

/-- The HTTP transport: which response the server gives to each request. -/
def World : Type := HttpRequest → HttpResponse

/-- Client configuration stored on the UispApi object by the constructor.
The source defaults are crm v1.0, nms v2.1 and secure true. -/
structure Config where
  server : String
  app_key : String
  api_version_crm : String
  api_version_nms : String
  secure : Bool

/-- Embeds the UispApi constructor: it stores the five configuration fields
and performs no network activity. -/
def uisp_api_init (uisp_server app_key crm_version nms_version : String)
    (secure : Bool) : Config :=
  ⟨uisp_server, app_key, crm_version, nms_version, secure⟩

/-- Outcome of one client method: the value returned or the exception raised,
the HTTP requests issued during the call, and the configuration state of the
object after the call. -/
structure CallOut (α : Type) where
  ret : Except PyError α
  trace : List HttpRequest
  post : Config

/-- Protocol selection shared by both URL builders: https when the secure
flag is set, http otherwise. -/
def protocol_of (secure : Bool) : String := if secure then "https" else "http"

/-- Embeds build_url_crm from the source. -/
def build_url_crm (self : Config) (sub_path : String) : String :=
  protocol_of self.secure ++ "://" ++ self.server ++ "/crm/api/" ++
    self.api_version_crm ++ "/" ++ sub_path

/-- Embeds build_url_nms from the source. -/
def build_url_nms (self : Config) (sub_path : String) : String :=
  protocol_of self.secure ++ "://" ++ self.server ++ "/nms/api/" ++
    self.api_version_nms ++ "/" ++ sub_path

/-- The headers dict built inside the CRM call helper. -/
def crm_headers (self : Config) : List (String × String) :=
  [("Content-Type", "application/json"), ("X-Auth-App-Key", self.app_key)]

/-- The headers dict built inside the NMS call helper. -/
def nms_headers (self : Config) : List (String × String) :=
  [("accept", "application/json"), ("x-auth-token", self.app_key)]

/-- The GET request issued by the CRM call helper. -/
def crm_request (self : Config) (api_call : String)
    (parameters : Option (List (String × String))) : HttpRequest :=
  ⟨"GET", build_url_crm self api_call, crm_headers self, parameters⟩

/-- The GET request issued by the NMS call helper. -/
def nms_request (self : Config) (api_call : String)
    (parameters : Option (List (String × String))) : HttpRequest :=
  ⟨"GET", build_url_nms self api_call, nms_headers self, parameters⟩

/-- Embeds call_api_crm from the source: call methods outside the known four
raise an Unknown APIException before any request, the get method issues a GET
and returns the decoded JSON only when return_type is json (returning None
otherwise), and delete, patch and post raise an Unimplemented APIException
with no request issued.  The Unimplemented message reproduces the source
literally: the braces are not interpolated because the source string lacks
the f prefix. -/
def call_api_crm (self : Config) (w : World) (call_method api_call : String)
    (parameters : Option (List (String × String))) (return_type : String) :
    CallOut (Option Json) :=
  if call_method ∉ ["delete", "get", "patch", "post"] then
    ⟨.error (.apiException ("Unknown call method: " ++ call_method)), [], self⟩
  else if call_method = "get" then
    ⟨if return_type = "json" then
        .ok (some ((w (crm_request self api_call parameters)).json))
      else .ok none,
      [crm_request self api_call parameters], self⟩
  else
    ⟨.error (.apiException "Unimplemented call method: \x7bcall_method\x7d"),
      [], self⟩

/-- Value produced by the NMS call helper: decoded JSON, or the raw response
stream when a return type other than json is requested. -/
inductive NmsValue where
  | json (j : Json)
  | raw (r : String)

/-- Embeds call_api_nms from the source: the call method argument is accepted
but never inspected, a GET request is always issued, a 200 response yields the
decoded JSON (or the raw stream when return_type is not json), and any other
status raises a RuntimeError.  The RuntimeError message reproduces the source
literally: the braces are not interpolated because the source string lacks
the f prefix. -/
def call_api_nms (self : Config) (w : World) (call_method api_call : String)
    (parameters : Option (List (String × String))) (return_type : String) :
    CallOut NmsValue :=
  ⟨if (w (nms_request self api_call parameters)).status_code = 200 then
      (if return_type = "json" then
        .ok (.json ((w (nms_request self api_call parameters)).json))
      else .ok (.raw ((w (nms_request self api_call parameters)).raw)))
    else
      .error (.runtimeError
        "Got error \x27\x7br.status_code\x7d\x27 while executing request"),
    [nms_request self api_call parameters], self⟩

/-- Embeds version_get: a CRM GET on the version sub path, then subscription
of the decoded body with the version key; exceptions from the helper
propagate through the bind. -/
def version_get (self : Config) (w : World) : CallOut Json :=
  let c := call_api_crm self w "get" "version" none "json"
  ⟨c.ret.bind (fun result =>
      match result with
      | some j => Json.subscript j "version"
      | none => .error (.typeError "NoneType object is not subscriptable")),
    c.trace, c.post⟩

/-- Python dict item assignment on an association list: overwrite in place
when the key is present, append otherwise. -/
def dict_set_item (d : List (String × String)) (key value : String) :
    List (String × String) :=
  if d.any (fun p => p.1 == key) then
    d.map (fun p => if p.1 == key then (key, value) else p)
  else d ++ [(key, value)]

/-- Embeds device_list: copy the keyword arguments into a fresh params dict
and issue an NMS GET on the devices sub path with those parameters. -/
def device_list (self : Config) (w : World)
    (kwargs : List (String × String)) : CallOut NmsValue :=
  let params := kwargs.foldl (fun d p => dict_set_item d p.1 p.2) []
  call_api_nms self w "get" "devices" (some params) "json"

/-- UTF-8 encoding of one character; Python percent-encoding operates on the
UTF-8 bytes of the input string. -/
def utf8EncodeChar (c : Char) : List Nat :=
  if c.toNat < 128 then [c.toNat]
  else if c.toNat < 2048 then [192 + c.toNat / 64, 128 + c.toNat % 64]
  else if c.toNat < 65536 then
    [224 + c.toNat / 4096, 128 + c.toNat / 64 % 64, 128 + c.toNat % 64]
  else
    [240 + c.toNat / 262144, 128 + c.toNat / 4096 % 64,
      128 + c.toNat / 64 % 64, 128 + c.toNat % 64]

/-- Bytes never quoted by the urllib quoter: ASCII letters, digits and the
four marks underscore, dot, hyphen and tilde. -/
def alwaysSafeByte (b : Nat) : Bool :=
  (65 ≤ b && b ≤ 90) || (97 ≤ b && b ≤ 122) || (48 ≤ b && b ≤ 57) ||
    b == 95 || b == 46 || b == 45 || b == 126

/-- Upper case hexadecimal digit, as produced by the urllib quoter. -/
def hexDigitChar (n : Nat) : Char :=
  if n < 10 then Char.ofNat (48 + n) else Char.ofNat (55 + n)

/-- Output of urllib quote_plus for a single byte: space becomes plus, safe
bytes pass through, every other byte becomes a percent escape. -/
def quotePlusByte (b : Nat) : List Char :=
  if b = 32 then ['+']
  else if alwaysSafeByte b then [Char.ofNat b]
  else ['%', hexDigitChar (b / 16), hexDigitChar (b % 16)]

/-- Embeds urllib.parse.quote_plus with its default empty safe set. -/
def quote_plus (s : String) : String :=
  ⟨(s.data.flatMap utf8EncodeChar).flatMap quotePlusByte⟩

/-- Embeds get_device_by_mac: an NMS GET whose sub path interpolates the
quote_plus encoding of the MAC address. -/
def get_device_by_mac (self : Config) (w : World) (mac : String) :
    CallOut NmsValue :=
  call_api_nms self w "get" ("devices/mac/" ++ quote_plus mac) none "json"

/-- Embeds get_device_creds: an NMS GET whose sub path interpolates the
device id between the vault and credentials segments. -/
def get_device_creds (self : Config) (w : World) (device_id : String) :
    CallOut NmsValue :=
  call_api_nms self w "get" ("vault/" ++ device_id ++ "/credentials") none "json"

/-- Embeds get_gateways: an NMS GET on the gateways sub path. -/
def get_gateways (self : Config) (w : World) : CallOut NmsValue :=
  call_api_nms self w "get" "gateways" none "json"

/-- One public operation of the client, with its arguments. -/
inductive Op where
  | versionGet
  | deviceList (kwargs : List (String × String))
  | getDeviceByMac (mac : String)
  | getDeviceCreds (device_id : String)
  | getGateways

/-- The configuration state of the object after running one operation. -/
def run_op (self : Config) (w : World) : Op → Config
  | .versionGet => (version_get self w).post
  | .deviceList kwargs => (device_list self w kwargs).post
  | .getDeviceByMac mac => (get_device_by_mac self w mac).post
  | .getDeviceCreds device_id => (get_device_creds self w device_id).post
  | .getGateways => (get_gateways self w).post

/-- A concrete configuration used to instantiate general theorems. -/
def cfg_ex : Config := ⟨"uisp.example.com", "testkey", "v1.0", "v2.1", true⟩

/-- A transport answering every request with status 200 and an empty JSON
object. -/
def world_200 : World := fun _ => ⟨200, Json.obj [], ""⟩

/-- A transport answering every request with status 404. -/
def world_404 : World := fun _ => ⟨404, Json.null, ""⟩

/-- A transport answering every request with a JSON object carrying a version
field. -/
def world_version : World :=
  fun _ => ⟨200, Json.obj [("version", Json.str "2.4.179")], ""⟩

/-- Every character codepoint is below the Unicode bound. -/
theorem char_toNat_lt (c : Char) : c.toNat < 1114112 := by
  have h : c.val.toNat < 55296 ∨ (57344 ≤ c.val.toNat ∧ c.val.toNat < 1114112) :=
    c.valid
  have he : c.toNat = c.val.toNat := rfl
  rcases h with h | ⟨h1, h2⟩ <;> omega

/-- Every byte of the UTF-8 encoding of a character is below 256. -/
theorem utf8EncodeChar_lt (c : Char) : ∀ b ∈ utf8EncodeChar c, b < 256 := by
  intro b hb
  have hv : c.toNat < 1114112 := char_toNat_lt c
  unfold utf8EncodeChar at hb
  split at hb
  · simp only [List.mem_singleton] at hb
    omega
  · split at hb
    · simp only [List.mem_cons, List.mem_singleton, List.not_mem_nil,
        or_false] at hb
      rcases hb with hb | hb <;> omega
    · split at hb
      · simp only [List.mem_cons, List.not_mem_nil, or_false] at hb
        rcases hb with hb | hb | hb <;> omega
      · simp only [List.mem_cons, List.not_mem_nil, or_false] at hb
        rcases hb with hb | hb | hb | hb <;> omega

/-- No byte below 256 is quoted to an output containing a raw colon. -/
theorem colon_notin_quotePlusByte :
    ∀ b : Nat, b < 256 → (':' ∈ quotePlusByte b → False) := by
  decide

/-- The quote_plus output never contains a raw colon. -/
theorem colon_notin_quote_plus (s : String) :
    ∀ c ∈ (quote_plus s).data, c ≠ ':' := by
  intro c hc hceq
  subst hceq
  have hd : (quote_plus s).data =
      (s.data.flatMap utf8EncodeChar).flatMap quotePlusByte := rfl
  rw [hd, List.mem_flatMap] at hc
  obtain ⟨b, hb, hcb⟩ := hc
  rw [List.mem_flatMap] at hb
  obtain ⟨ch, _, hbch⟩ := hb
  exact colon_notin_quotePlusByte b (utf8EncodeChar_lt ch b hbch) hcb

/-- When the input contains a colon, the quote_plus output contains the
percent escape of the colon byte. -/
theorem percent3A_infix (s : String) (h : ':' ∈ s.data) :
    List.IsInfix "%3A".data (quote_plus s).data := by
  obtain ⟨l1, l2, hsplit⟩ := List.append_of_mem h
  refine ⟨(l1.flatMap utf8EncodeChar).flatMap quotePlusByte,
    (l2.flatMap utf8EncodeChar).flatMap quotePlusByte, ?_⟩
  have hd : (quote_plus s).data =
      (s.data.flatMap utf8EncodeChar).flatMap quotePlusByte := rfl
  have h1 : utf8EncodeChar ':' = [58] := by decide
  have h2 : quotePlusByte 58 = ['%', '3', 'A'] := by decide
  have h3 : ("%3A".data : List Char) = ['%', '3', 'A'] := rfl
  rw [hd, hsplit, h3]
  simp [List.flatMap_append, List.flatMap_cons, h1, h2]

/-- Setting a key absent from the dict appends the pair at the end. -/
theorem dict_set_item_append (d : List (String × String)) (k v : String)
    (h : k ∉ d.map Prod.fst) : dict_set_item d k v = d ++ [(k, v)] := by
  have ha : d.any (fun p => p.1 == k) = false := by
    rw [List.any_eq_false]
    intro p hp hpk
    rw [beq_iff_eq] at hpk
    exact h (List.mem_map.mpr ⟨p, hp, hpk⟩)
  simp [dict_set_item, ha]

/-- Folding dict assignment over pairs with fresh distinct keys appends the
pairs in order. -/
theorem foldl_dict_set_item (kw : List (String × String)) :
    ∀ acc : List (String × String),
    (kw.map Prod.fst).Nodup → (∀ p ∈ kw, p.1 ∉ acc.map Prod.fst) →
    kw.foldl (fun d p => dict_set_item d p.1 p.2) acc = acc ++ kw := by
  induction kw with
  | nil =>
    intro acc _ _
    simp
  | cons hd tl ih =>
    intro acc hnd hdisj
    have hhd : hd.1 ∉ acc.map Prod.fst := hdisj hd (List.mem_cons_self hd tl)
    have hnd' : (tl.map Prod.fst).Nodup := by
      rw [List.map_cons, List.nodup_cons] at hnd
      exact hnd.2
    have hhdtl : hd.1 ∉ tl.map Prod.fst := by
      rw [List.map_cons, List.nodup_cons] at hnd
      exact hnd.1
    have hdisj' : ∀ p ∈ tl, p.1 ∉ (acc ++ [(hd.1, hd.2)]).map Prod.fst := by
      intro p hp
      rw [List.map_append, List.mem_append]
      rintro (hmem | hmem)
      · exact hdisj p (List.mem_cons_of_mem hd hp) hmem
      · rw [List.map_singleton, List.mem_singleton] at hmem
        exact hhdtl (hmem ▸ List.mem_map.mpr ⟨p, hp, rfl⟩)
    have hstep : List.foldl (fun d p => dict_set_item d p.1 p.2) acc (hd :: tl) =
        List.foldl (fun d p => dict_set_item d p.1 p.2)
          (dict_set_item acc hd.1 hd.2) tl := rfl
    rw [hstep, dict_set_item_append acc hd.1 hd.2 hhd,
      ih (acc ++ [(hd.1, hd.2)]) hnd' hdisj']
    simp

/-- Claim C1. A non-200 NMS response does raise, but the RuntimeError message
does not identify the received status code: the source string lacks the f
prefix, so the message is the constant literal text with an uninterpolated
placeholder, containing no digit at all. -/
theorem nms_error_message_lacks_status_code :
    (call_api_nms cfg_ex world_404 "get" "devices" none "json").ret =
      .error (.runtimeError
        "Got error \x27\x7br.status_code\x7d\x27 while executing request") ∧
    ("Got error \x27\x7br.status_code\x7d\x27 while executing request").data.all
      (fun c => ! c.isDigit) = true :=
  ⟨rfl, by decide⟩

/-- Claim C2, counterexample. The NMS helper invoked with the post call
method does not fail: it issues a GET request and returns the decoded JSON,
refuting the claim for the NMS request helper. -/
theorem call_method_check_cex :
    (call_api_nms cfg_ex world_200 "post" "gateways" none "json").ret =
      .ok (.json (Json.obj [])) ∧
    (call_api_nms cfg_ex world_200 "post" "gateways" none "json").trace =
      [nms_request cfg_ex "gateways" none] :=
  ⟨rfl, rfl⟩

/-- Claim C2, amended. Every CRM call with a call method other than get
fails with an APIException and issues no HTTP request, while the NMS helper
ignores the call method and always issues exactly one GET request. -/
theorem crm_rejects_non_get :
    ∀ (self : Config) (w : World) (m sub_path : String)
      (params : Option (List (String × String))) (rt : String),
    m ≠ "get" →
    ((∃ msg, (call_api_crm self w m sub_path params rt).ret =
        .error (.apiException msg)) ∧
      (call_api_crm self w m sub_path params rt).trace = []) ∧
    (call_api_nms self w m sub_path params rt).trace =
      [nms_request self sub_path params] := by
  intro self w m sub_path params rt hm
  refine ⟨?_, rfl⟩
  by_cases h1 : m ∈ ["delete", "get", "patch", "post"]
  · have he : call_api_crm self w m sub_path params rt =
        ⟨.error (.apiException "Unimplemented call method: \x7bcall_method\x7d"),
          [], self⟩ := by
      unfold call_api_crm
      rw [if_neg (not_not_intro h1), if_neg hm]
    rw [he]
    exact ⟨⟨"Unimplemented call method: \x7bcall_method\x7d", rfl⟩, rfl⟩
  · have he : call_api_crm self w m sub_path params rt =
        ⟨.error (.apiException ("Unknown call method: " ++ m)), [], self⟩ := by
      unfold call_api_crm
      rw [if_pos h1]
    rw [he]
    exact ⟨⟨"Unknown call method: " ++ m, rfl⟩, rfl⟩

/-- Witness for claim C2 at the post call method. -/
theorem crm_rejects_non_get_witness :
    ((∃ msg, (call_api_crm cfg_ex world_200 "post" "clients" none "json").ret =
        .error (.apiException msg)) ∧
      (call_api_crm cfg_ex world_200 "post" "clients" none "json").trace = []) ∧
    (call_api_nms cfg_ex world_200 "post" "clients" none "json").trace =
      [nms_request cfg_ex "clients" none] :=
  crm_rejects_non_get cfg_ex world_200 "post" "clients" none "json" (by decide)

/-- Claim C5. The request issued by get_device_by_mac targets the devices
slash mac sub path holding the quote_plus encoding of the MAC address; the
encoded MAC never contains a raw colon, and every MAC containing a colon
yields the percent escape sequence in the encoding. -/
theorem get_device_by_mac_percent_encodes_colon :
    ∀ (self : Config) (w : World) (mac : String),
    (get_device_by_mac self w mac).trace =
      [nms_request self ("devices/mac/" ++ quote_plus mac) none] ∧
    (∀ c ∈ (quote_plus mac).data, c ≠ ':') ∧
    (':' ∈ mac.data → List.IsInfix "%3A".data (quote_plus mac).data) := by
  intro self w mac
  exact ⟨rfl, colon_notin_quote_plus mac, fun h => percent3A_infix mac h⟩

/-- Witness for claim C5 at a MAC address with colons. -/
theorem get_device_by_mac_percent_encodes_colon_witness :
    List.IsInfix "%3A".data (quote_plus "00:1A:2B:3C:4D:5E").data :=
  (get_device_by_mac_percent_encodes_colon cfg_ex world_200
    "00:1A:2B:3C:4D:5E").2.2 (by decide)

/-- Claim C6. A CRM GET with json return type returns the decoded body of
whatever response the transport produces: no status code is inspected, so no
client-side error is possible on this path. -/
theorem crm_returns_json_regardless_of_status :
    ∀ (self : Config) (w : World) (sub_path : String)
      (params : Option (List (String × String))),
    (call_api_crm self w "get" sub_path params "json").ret =
      .ok (some ((w (crm_request self sub_path params)).json)) := by
  intro self w sub_path params
  rfl

/-- Claim C7. The CRM helper issues its GET at the crm api base path carrying
the application key in the X-Auth-App-Key header, the NMS helper issues its
GET at the nms api base path carrying the key in the x-auth-token header
together with the json accept header, and both use https exactly when the
secure flag is set. -/
theorem urls_and_auth_headers :
    ∀ (self : Config) (w : World) (sub_path : String)
      (params : Option (List (String × String))) (rt : String),
    (call_api_crm self w "get" sub_path params rt).trace =
      [⟨"GET", (if self.secure then "https" else "http") ++ "://" ++
          self.server ++ "/crm/api/" ++ self.api_version_crm ++ "/" ++ sub_path,
        crm_headers self, params⟩] ∧
    ("X-Auth-App-Key", self.app_key) ∈ crm_headers self ∧
    (call_api_nms self w "get" sub_path params rt).trace =
      [⟨"GET", (if self.secure then "https" else "http") ++ "://" ++
          self.server ++ "/nms/api/" ++ self.api_version_nms ++ "/" ++ sub_path,
        nms_headers self, params⟩] ∧
    ("x-auth-token", self.app_key) ∈ nms_headers self ∧
    ("accept", "application/json") ∈ nms_headers self := by
  intro self w sub_path params rt
  refine ⟨rfl, ?_, rfl, ?_, ?_⟩ <;> simp [crm_headers, nms_headers]

/-- Claim C10. A CRM GET with a return type other than json issues the
request but returns None: no value and no exception. -/
theorem crm_non_json_returns_none :
    ∀ (self : Config) (w : World) (sub_path : String)
      (params : Option (List (String × String))) (rt : String),
    rt ≠ "json" →
    (call_api_crm self w "get" sub_path params rt).ret = .ok none ∧
    (call_api_crm self w "get" sub_path params rt).trace =
      [crm_request self sub_path params] := by
  intro self w sub_path params rt h
  constructor
  · show (if rt = "json" then
        Except.ok (some ((w (crm_request self sub_path params)).json))
      else Except.ok none) = Except.ok none
    rw [if_neg h]
  · rfl

/-- Witness for claim C10 at the raw return type. -/
theorem crm_non_json_returns_none_witness :
    (call_api_crm cfg_ex world_200 "get" "clients" none "raw").ret = .ok none :=
  (crm_non_json_returns_none cfg_ex world_200 "clients" none "raw"
    (by decide)).1

/-- Claim C3. version_get issues one GET at the crm api version sub path and
returns exactly the value stored under the version key of the decoded object
response, raising a KeyError when the key is absent. -/
theorem version_get_returns_version_field :
    ∀ (self : Config) (w : World) (fields : List (String × Json)),
    (w (crm_request self "version" none)).json = Json.obj fields →
    (crm_request self "version" none).url =
      protocol_of self.secure ++ "://" ++ self.server ++ "/crm/api/" ++
        self.api_version_crm ++ "/" ++ "version" ∧
    (version_get self w).trace = [crm_request self "version" none] ∧
    (fields.find? (fun p => p.1 == "version") = none →
      (version_get self w).ret = .error (.keyError "version")) ∧
    (∀ q, fields.find? (fun p => p.1 == "version") = some q →
      (version_get self w).ret = .ok q.2) := by
  intro self w fields hj
  have hret : (version_get self w).ret =
      Json.subscript ((w (crm_request self "version" none)).json) "version" :=
    rfl
  refine ⟨rfl, rfl, ?_, ?_⟩
  · intro hf
    rw [hret, hj]
    simp [Json.subscript, hf]
  · intro q hf
    rw [hret, hj]
    simp [Json.subscript, hf]

/-- Witness for claim C3 at a response carrying a version field. -/
theorem version_get_returns_version_field_witness :
    (version_get cfg_ex world_version).ret = .ok (Json.str "2.4.179") := by
  have h := (version_get_returns_version_field cfg_ex world_version
    [("version", Json.str "2.4.179")] rfl).2.2.2
    ("version", Json.str "2.4.179") rfl
  exact h

/-- Claim C4. device_list forwards the supplied filter mapping verbatim: the
single GET request issued targets the devices sub path and carries exactly
the supplied key and value pairs as its query parameters, none added, dropped
or renamed. -/
theorem device_list_forwards_filters :
    ∀ (self : Config) (w : World) (kwargs : List (String × String)),
    (kwargs.map Prod.fst).Nodup →
    (device_list self w kwargs).trace =
      [nms_request self "devices" (some kwargs)] ∧
    (nms_request self "devices" (some kwargs)).params = some kwargs ∧
    (nms_request self "devices" (some kwargs)).url =
      protocol_of self.secure ++ "://" ++ self.server ++ "/nms/api/" ++
        self.api_version_nms ++ "/" ++ "devices" := by
  intro self w kwargs h
  have hp : kwargs.foldl (fun d p => dict_set_item d p.1 p.2) [] = kwargs := by
    have := foldl_dict_set_item kwargs [] h (by simp)
    simpa using this
  have h1 : (device_list self w kwargs).trace =
      [nms_request self "devices"
        (some (kwargs.foldl (fun d p => dict_set_item d p.1 p.2) []))] := rfl
  rw [h1, hp]
  exact ⟨rfl, rfl, rfl⟩

/-- Witness for claim C4 at a one-entry filter mapping. -/
theorem device_list_forwards_filters_witness :
    (device_list cfg_ex world_200 [("role", "ap")]).trace =
      [nms_request cfg_ex "devices" (some [("role", "ap")])] :=
  (device_list_forwards_filters cfg_ex world_200 [("role", "ap")]
    (by decide)).1

/-- Claim C9, helper. An NMS call with json return type returns the decoded
body whenever the transport answers with status 200. -/
theorem call_api_nms_ret_200 (self : Config) (w : World) (m a : String)
    (p : Option (List (String × String)))
    (h : (w (nms_request self a p)).status_code = 200) :
    (call_api_nms self w m a p "json").ret =
      .ok (.json ((w (nms_request self a p)).json)) := by
  show (if (w (nms_request self a p)).status_code = 200 then _ else _) = _
  rw [if_pos h]
  rfl

/-- Claim C9. get_device_creds issues one GET at the vault credentials sub
path for the device id, get_gateways issues one GET at the gateways sub path,
and on a 200 response each returns the decoded JSON unchanged. -/
theorem nms_paths_creds_gateways :
    ∀ (self : Config) (w : World) (device_id : String),
    (get_device_creds self w device_id).trace =
      [nms_request self ("vault/" ++ device_id ++ "/credentials") none] ∧
    (get_gateways self w).trace = [nms_request self "gateways" none] ∧
    ((w (nms_request self ("vault/" ++ device_id ++ "/credentials") none)).status_code = 200 →
      (get_device_creds self w device_id).ret =
        .ok (.json ((w (nms_request self
          ("vault/" ++ device_id ++ "/credentials") none)).json))) ∧
    ((w (nms_request self "gateways" none)).status_code = 200 →
      (get_gateways self w).ret =
        .ok (.json ((w (nms_request self "gateways" none)).json))) := by
  intro self w device_id
  refine ⟨rfl, rfl, ?_, ?_⟩
  · intro h
    exact call_api_nms_ret_200 self w "get"
      ("vault/" ++ device_id ++ "/credentials") none h
  · intro h
    exact call_api_nms_ret_200 self w "get" "gateways" none h

/-- Witness for claim C9 at a 200 transport. -/
theorem nms_paths_creds_gateways_witness :
    (get_device_creds cfg_ex world_200 "dev-uuid-1").ret =
      .ok (.json (Json.obj [])) := by
  have h := (nms_paths_creds_gateways cfg_ex world_200 "dev-uuid-1").2.2.1 rfl
  exact h

/-- Claim C8, helper. No operation changes the configuration state. -/
theorem run_op_eq (self : Config) (w : World) (op : Op) :
    run_op self w op = self := by
  cases op <;> rfl

/-- Claim C8. After any sequence of client operations the five configuration
fields still equal the values given to the constructor. -/
theorem config_immutable :
    ∀ (w : World) (ops : List Op)
      (uisp_server app_key crm_version nms_version : String) (secure : Bool),
    ops.foldl (fun c op => run_op c w op)
        (uisp_api_init uisp_server app_key crm_version nms_version secure) =
      uisp_api_init uisp_server app_key crm_version nms_version secure := by
  intro w ops uisp_server app_key crm_version nms_version secure
  generalize uisp_api_init uisp_server app_key crm_version nms_version secure = c
  induction ops generalizing c with
  | nil => rfl
  | cons hd tl ih =>
    have hstep : List.foldl (fun c op => run_op c w op) c (hd :: tl) =
        List.foldl (fun c op => run_op c w op) (run_op c w hd) tl := rfl
    rw [hstep, run_op_eq c w hd]
    exact ih c

end UISP
